import Mathlib

/-!
Shallow embedding of the output-and-error reporting layer of the rover CLI
(src/command/output.rs, src/command/template/templates.rs), together with the
machine-output envelope and error taxonomy that the spec describes.
-/

namespace Rover

/-- A JSON value, as produced by the `serde_json::Value`-building code. -/
inductive Json where
  | null : Json
  | bool : Bool → Json
  | str : String → Json
  | num : Int → Json
  | arr : List Json → Json
  | obj : List (String × Json) → Json

/-- Key lookup in a JSON object; `none` on non-objects and missing keys. -/
def Json.lookup : Json → String → Option Json
  | .obj fields, k => List.lookup k fields
  | _, _ => none

/-- `serde_json` encoding of an `Option<String>`: `null` for `None`. -/
def Json.optStr : Option String → Json
  | none => Json.null
  | some s => Json.str s

/-- A single quote character, used inside narration strings. -/
def squote : String := String.mk [Char.ofNat 39]

/-- Wrap a string in single quotes, as the `'{}'` format fragments do. -/
def q (s : String) : String := squote ++ s ++ squote

/-- A build error from `apollo_federation_types::build::BuildError`, always of
the composition kind (`BuildError::composition_error(code, message)`). -/
structure BuildError where
  code : Option String
  message : Option String

/-- Machine encoding of one build error. Modelled from the spec: the
`Serialize` impl of `BuildError` lives in apollo-federation-types, not under
src/; its shape (`message`, nullable `code`, `type: "composition"`) follows
the spec and the JSON fixtures in output.rs tests. -/
def BuildError.toJson (e : BuildError) : Json :=
  Json.obj [("message", Json.optStr e.message), ("code", Json.optStr e.code),
    ("type", Json.str "composition")]

/-- Human rendering of a list of build errors. Modelled from the spec: the
`Display` impl of `BuildErrors` lives in apollo-federation-types, not under
src/; it prints each error's message on its own line. -/
def buildErrorsDisplay (errs : List BuildError) : String :=
  String.intercalate "\n" (errs.map fun e => e.message.getD "")

/-- `rover_client::shared::GraphRef`. -/
structure GraphRef where
  name : String
  variant : String

/-- `Display` for `GraphRef`: `name@variant`. Modelled from the spec: the
impl lives in rover-client, not under src/; the rendering follows the
`"name@current"` occurrences in the output.rs test fixtures. -/
def GraphRef.render (g : GraphRef) : String := g.name ++ "@" ++ g.variant

/-- Modelled from the spec: the classified error kinds of §7 (the
`RoverError`/`RoverClientError` taxonomy lives in crates not under src/). -/
inductive ErrorKind where
  | targetNotFound
  | buildErrors
  | checkFailed
  | authenticationFailure
  | networkFailure

/-- Modelled from the spec: the stable `E0NN` code of each classified kind
(§4.3); `E029` (build errors), `E030` (check failed) and `E009`
(target-not-found) are fixed by the output.rs test fixtures. -/
def ErrorKind.code : ErrorKind → String
  | .targetNotFound => "E009"
  | .buildErrors => "E029"
  | .checkFailed => "E030"
  | .authenticationFailure => "E020"
  | .networkFailure => "E028"

/-- Modelled from the spec: an `ErrorValue` (§3) — a classified kind or the
unclassified fallback (`classified = none`), a human message, the build-error
list carried by the build-errors kind, and any machine data carried by the
failure (e.g. check results). The concrete `RoverError` type lives outside
src/. -/
structure ErrorValue where
  classified : Option ErrorKind
  message : String
  build_errors : List BuildError
  data : Json

/-- Modelled from the spec: the machine `error` object of §4.3/§6 —
`message`, `code` (`null` for unclassified), and `details` only for kinds
carrying structured auxiliary data (the build-error list). -/
def ErrorValue.errorJson (e : ErrorValue) : Json :=
  match e.classified with
  | none => Json.obj [("message", Json.str e.message), ("code", Json.null)]
  | some k =>
    match k with
    | .buildErrors =>
      Json.obj [("message", Json.str e.message), ("code", Json.str k.code),
        ("details", Json.obj [("build_errors", Json.arr (e.build_errors.map BuildError.toJson))])]
    | _ => Json.obj [("message", Json.str e.message), ("code", Json.str k.code)]

/-- Modelled from the spec: `RoverError::from(RoverClientError::SubgraphBuildErrors
{ subgraph, graph_ref, source })` (rover-client, not under src/), as an
`ErrorValue` of the build-errors kind; message text follows the
output.rs test fixtures. -/
def subgraphBuildErrorsError (subgraph : String) (graph_ref : GraphRef)
    (errs : List BuildError) : ErrorValue :=
  { classified := some ErrorKind.buildErrors
    message := "Encountered " ++ toString errs.length ++
      " build errors while trying to build subgraph \"" ++ subgraph ++
      "\" into supergraph \"" ++ graph_ref.render ++ "\"."
    build_errors := errs
    data := Json.null }

/-- `rover_client::operations::subgraph::publish::SubgraphPublishResponse`. -/
structure SubgraphPublishResponse where
  api_schema_hash : Option String
  build_errors : List BuildError
  supergraph_was_updated : Bool
  subgraph_was_created : Bool
  launch_url : Option String
  launch_cli_copy : Option String

/-- Machine encoding of a publish response. Modelled from the spec: the
`Serialize` impl lives in rover-client, not under src/; field set (which
skips `build_errors`) follows the output.rs test fixtures. -/
def SubgraphPublishResponse.toJson (r : SubgraphPublishResponse) : Json :=
  Json.obj [("api_schema_hash", Json.optStr r.api_schema_hash),
    ("supergraph_was_updated", Json.bool r.supergraph_was_updated),
    ("subgraph_was_created", Json.bool r.subgraph_was_created),
    ("launch_url", Json.optStr r.launch_url),
    ("launch_cli_copy", Json.optStr r.launch_cli_copy)]

/-- `rover_client::operations::subgraph::delete::SubgraphDeleteResponse`. -/
structure SubgraphDeleteResponse where
  supergraph_was_updated : Bool
  build_errors : List BuildError

/-- Machine encoding of a delete response. Modelled from the spec: the
`Serialize` impl lives in rover-client, not under src/; it carries only
`supergraph_was_updated` per the output.rs test fixtures. -/
def SubgraphDeleteResponse.toJson (r : SubgraphDeleteResponse) : Json :=
  Json.obj [("supergraph_was_updated", Json.bool r.supergraph_was_updated)]

/-- A `chrono::DateTime<Local>`, an external collaborator; represented by its
`"%Y-%m-%d %H:%M:%S %Z"` rendering, the only use output.rs makes of it. -/
structure LocalDateTime where
  formatted : String

/-- `rover_client::operations::subgraph::list::SubgraphUpdatedAt`; `local`
is a Lean keyword, so the field is named `localTime` (`utc` is kept as its
serialized rendering). -/
structure SubgraphUpdatedAt where
  localTime : Option LocalDateTime
  utc : Option String

/-- `rover_client::operations::subgraph::list::SubgraphInfo`. -/
structure SubgraphInfo where
  name : String
  url : Option String
  updated_at : SubgraphUpdatedAt

/-- `rover_client::operations::subgraph::list::SubgraphListResponse`. -/
structure SubgraphListResponse where
  subgraphs : List SubgraphInfo
  root_url : String
  graph_ref : GraphRef

/-- Machine encoding of one subgraph row. Modelled from the spec: the
`Serialize` impls live in rover-client, not under src/; shape follows the
subgraph_list_json test fixture (`root_url`/`graph_ref` are skipped). -/
def SubgraphInfo.toJson (s : SubgraphInfo) : Json :=
  Json.obj [("name", Json.str s.name), ("url", Json.optStr s.url),
    ("updated_at", Json.obj [
      ("local", Json.optStr (s.updated_at.localTime.map LocalDateTime.formatted)),
      ("utc", Json.optStr s.updated_at.utc)])]

/-- Machine encoding of a subgraph list. Modelled from the spec: see
`SubgraphInfo.toJson`. -/
def SubgraphListResponse.toJson (r : SubgraphListResponse) : Json :=
  Json.obj [("subgraphs", Json.arr (r.subgraphs.map SubgraphInfo.toJson))]

/-- `rover_client::operations::contract::describe::ContractDescribeResponse`. -/
structure ContractDescribeResponse where
  description : String
  root_url : String
  graph_ref : GraphRef

/-- Machine encoding of a contract description. Modelled from the spec: the
`Serialize` impl lives in rover-client, not under src/; it carries the
response's fields. -/
def ContractDescribeResponse.toJson (r : ContractDescribeResponse) : Json :=
  Json.obj [("description", Json.str r.description)]

/-- `rover_client::operations::contract::publish::ContractPublishResponse`. -/
structure ContractPublishResponse where
  config_description : String
  launch_cli_copy : Option String

/-- Machine encoding of a contract publish. Modelled from the spec: the
`Serialize` impl lives in rover-client, not under src/. -/
def ContractPublishResponse.toJson (r : ContractPublishResponse) : Json :=
  Json.obj [("config_description", Json.str r.config_description),
    ("launch_cli_copy", Json.optStr r.launch_cli_copy)]

/-- `rover_client::shared::SdlType`. -/
inductive SdlType where
  | graph
  | subgraph (routing_url : Option String)
  | supergraph

/-- `rover_client::shared::Sdl`; the Rust field `r#type` is named `sdlType`. -/
structure Sdl where
  contents : String
  sdlType : SdlType

/-- `rover_client::shared::FetchResponse`. -/
structure FetchResponse where
  sdl : Sdl

/-- Machine encoding of a fetch response. Modelled from the spec: the
`Serialize` impl lives in rover-client, not under src/; it carries only
`sdl.contents` per the fetch_response_json test fixture. -/
def FetchResponse.toJson (r : FetchResponse) : Json :=
  Json.obj [("sdl", Json.obj [("contents", Json.str r.sdl.contents)])]

/-- A composition hint, carrying a message (from apollo-federation-types). -/
structure BuildHint where
  message : String

/-- Machine encoding of a hint. Modelled from the spec: the `Serialize` impl
lives in apollo-federation-types, not under src/. -/
def BuildHint.toJson (h : BuildHint) : Json :=
  Json.obj [("message", Json.str h.message)]

/-- `crate::command::supergraph::compose::CompositionOutput`. -/
structure CompositionOutput where
  supergraph_sdl : String
  hints : List BuildHint
  federation_version : Option String

/-- `rover_client::shared::ChangeSeverity`. -/
inductive ChangeSeverity where
  | pass
  | fail

/-- Machine encoding of a severity. Modelled from the spec: serialization
lives in rover-client, not under src/; `"PASS"`/`"FAIL"` per test fixtures. -/
def ChangeSeverity.render : ChangeSeverity → String
  | .pass => "PASS"
  | .fail => "FAIL"

/-- `rover_client::shared::SchemaChange`. -/
structure SchemaChange where
  code : String
  description : String
  severity : ChangeSeverity

/-- Machine encoding of a schema change. Modelled from the spec: the
`Serialize` impl lives in rover-client, not under src/. -/
def SchemaChange.toJson (c : SchemaChange) : Json :=
  Json.obj [("code", Json.str c.code), ("description", Json.str c.description),
    ("severity", Json.str c.severity.render)]

/-- `rover_client::shared::CheckResponse` (successful check). -/
structure CheckResponse where
  target_url : Option String
  operation_check_count : Nat
  changes : List SchemaChange
  failure_count : Nat
  core_schema_modified : Bool

/-- `CheckResponse::get_table`. Modelled from the spec: the impl lives in
rover-client, not under src/; tabular results render the ordered change list
as a fixed-column table (§4.1). -/
def CheckResponse.get_table (c : CheckResponse) : String :=
  String.intercalate "\n" (c.changes.map fun ch =>
    ch.severity.render ++ " | " ++ ch.code ++ " | " ++ ch.description)

/-- `CheckResponse::get_json`. Modelled from the spec: the impl lives in
rover-client, not under src/; field set per the check_success_response_json
test fixture (the `success` boolean is added by the envelope). -/
def CheckResponse.get_json (c : CheckResponse) : Json :=
  Json.obj [("target_url", Json.optStr c.target_url),
    ("operation_check_count", Json.num c.operation_check_count),
    ("changes", Json.arr (c.changes.map SchemaChange.toJson)),
    ("failure_count", Json.num c.failure_count),
    ("core_schema_modified", Json.bool c.core_schema_modified)]

/-- `rover_client::shared::CheckRequestSuccessResult`. -/
structure CheckRequestSuccessResult where
  workflow_id : String
  target_url : String

/-- `CheckRequestSuccessResult::get_json`. Modelled from the spec: the impl
lives in rover-client, not under src/. -/
def CheckRequestSuccessResult.get_json (c : CheckRequestSuccessResult) : Json :=
  Json.obj [("workflow_id", Json.str c.workflow_id),
    ("target_url", Json.str c.target_url)]

/-- `ChangeSummary` of a graph publish, an external collaborator; represented
by its `Display` rendering, the only use output.rs makes of it besides
serialization. -/
structure ChangeSummary where
  rendered : String
  field_changes_json : Json
  type_changes_json : Json

/-- `rover_client::operations::graph::publish::GraphPublishResponse`. -/
structure GraphPublishResponse where
  api_schema_hash : String
  change_summary : ChangeSummary

/-- Machine encoding of a graph publish. Modelled from the spec: the
`Serialize` impl lives in rover-client, not under src/; shape per the
graph_publish_response_json test fixture. -/
def GraphPublishResponse.toJson (r : GraphPublishResponse) : Json :=
  Json.obj [("api_schema_hash", Json.str r.api_schema_hash),
    ("field_changes", r.change_summary.field_changes_json),
    ("type_changes", r.change_summary.type_changes_json)]

/-- `crate::options::GithubTemplate`. -/
structure GithubTemplate where
  id : String
  git_url : String
  display : String
  language : String

/-- Machine encoding of a template. Modelled from the spec: the `Serialize`
impl lives in crate::options, not under src/. -/
def GithubTemplate.toJson (t : GithubTemplate) : Json :=
  Json.obj [("id", Json.str t.id), ("git_url", Json.str t.git_url),
    ("display", Json.str t.display), ("language", Json.str t.language)]

/-- `RoverOutput` (src/command/output.rs): every type of data rover prints.
`DocsList`'s `BTreeMap` is represented as its ordered key-value list, and
`Utf8PathBuf` as a string. -/
inductive RoverOutput where
  | ContractDescribe (describe_response : ContractDescribeResponse)
  | ContractPublish (publish_response : ContractPublishResponse)
  | DocsList (shortlinks : List (String × String))
  | FetchResponse (fetch_response : FetchResponse)
  | SupergraphSchema (csdl : String)
  | CompositionResult (composition_output : CompositionOutput)
  | SubgraphList (details : SubgraphListResponse)
  | CheckResponse (check_response : CheckResponse)
  | AsyncCheckResponse (check_response : CheckRequestSuccessResult)
  | GraphPublishResponse (graph_ref : GraphRef) (publish_response : GraphPublishResponse)
  | SubgraphPublishResponse (graph_ref : GraphRef) (subgraph : String)
      (publish_response : SubgraphPublishResponse)
  | SubgraphDeleteResponse (graph_ref : GraphRef) (subgraph : String) (dry_run : Bool)
      (delete_response : SubgraphDeleteResponse)
  | TemplateList (templates : List GithubTemplate)
  | TemplateUseSuccess (template : GithubTemplate) (path : String)
  | Profiles (profiles : List String)
  | Introspection (introspection_response : String)
  | ErrorExplanation (explanation : String)
  | ReadmeFetchResponse (graph_ref : GraphRef) (content : String)
      (last_updated_time : Option String)
  | ReadmePublishResponse (graph_ref : GraphRef) (new_content : String)
      (last_updated_time : Option String)
  | EmptySuccess

/-- The two output streams: primary is stdout, secondary is stderr. -/
inductive StreamTag where
  | primary
  | secondary

/-- One write to one of the two streams. -/
structure Emit where
  stream : StreamTag
  text : String

/-- The `stderrln!`/`stderr!` macros of calm_io: a write to the secondary
stream (the newline distinction is immaterial here and not tracked). -/
def stderrln (s : String) : Emit :=
  { stream := StreamTag.secondary, text := s }

/-- Rendering of a fixed-column text table built via `table::get_table()` and
`add_row`. Modelled from the spec: the table-drawing primitive (prettytable)
is an external collaborator (§1); rows of cells are kept as given and joined
for the final string. -/
def renderTable (rows : List (List String)) : String :=
  String.intercalate "\n" (rows.map fun r => String.intercalate " | " r)

/-- The row built for one subgraph in the `SubgraphList` arm of
`RoverOutput::get_stdout`: url defaults to "unspecified" when `None` or
empty, the timestamp to "N/A" when there is no local time. -/
def subgraphRow (subgraph : SubgraphInfo) : List String :=
  let url := subgraph.url.getD "unspecified"
  let url := if url.isEmpty then "unspecified" else url
  let formatted_updated_at :=
    match subgraph.updated_at.localTime with
    | some dt => dt.formatted
    | none => "N/A"
  [subgraph.name, url, formatted_updated_at]

/-- `RoverOutput::descriptor`. -/
def RoverOutput.descriptor : RoverOutput → Option String
  | .ContractDescribe _ => some "Configuration Description"
  | .ContractPublish _ => some "New Configuration Description"
  | .FetchResponse fetch_response =>
    match fetch_response.sdl.sdlType with
    | .graph | .subgraph _ => some "Schema"
    | .supergraph => some "Supergraph Schema"
  | .CompositionResult _ | .SupergraphSchema _ => some "Supergraph Schema"
  | .TemplateUseSuccess _ _ => some "Project generated"
  | .CheckResponse _ => some "Check Result"
  | .AsyncCheckResponse _ => some "Check Started"
  | .Profiles _ => some "Profiles"
  | .Introspection _ => some "Introspection Response"
  | .ReadmeFetchResponse _ _ _ => some "Readme"
  | .GraphPublishResponse _ _ => some "Schema Hash"
  | _ => none

/-- `RoverOutput::print_descriptor`; `isTty` is the injected
`atty::is(Stream::Stdout)` capability (spec §9), and terminal styling
(`Style::Heading.paint`) is an external collaborator rendered as plain text. -/
def RoverOutput.print_descriptor (o : RoverOutput) (isTty : Bool) : List Emit :=
  (if isTty then
    match o.descriptor with
    | some descriptor => [descriptor ++ ": \n"]
    | none => []
  else []).map stderrln

/-- `RoverOutput::print_one_line_descriptor`; same conventions as
`print_descriptor`. -/
def RoverOutput.print_one_line_descriptor (o : RoverOutput) (isTty : Bool) : List Emit :=
  (if isTty then
    match o.descriptor with
    | some descriptor => [descriptor ++ ": "]
    | none => []
  else []).map stderrln

/-- `RoverOutput::get_stdout`: the secondary-stream narration writes, in
order, and the optional primary-stream body. Terminal styling (`Style`,
termimad's `MadSkin`) is an external collaborator rendered as plain text. -/
def RoverOutput.get_stdout : RoverOutput → List Emit × Option String
  | .ContractDescribe describe_response =>
    ([], some (describe_response.description ++
      "\nView the variant's full configuration at " ++ describe_response.root_url ++
      "/graph/" ++ describe_response.graph_ref.name ++ "/settings/variant?variant=" ++
      describe_response.graph_ref.variant))
  | .ContractPublish publish_response =>
    ([], some (publish_response.config_description ++ "\n" ++
      publish_response.launch_cli_copy.getD "No launch was triggered for this publish."))
  | .DocsList shortlinks =>
    (["You can open any of these documentation pages by running " ++
        "`rover docs open <slug>`" ++ ".\n"].map stderrln,
      some (renderTable (["Slug", "Description"] ::
        shortlinks.map fun p => [p.1, p.2])))
  | .FetchResponse fetch_response => ([], some fetch_response.sdl.contents)
  | .GraphPublishResponse graph_ref publish_response =>
    ([graph_ref.render ++ "#" ++ publish_response.api_schema_hash ++
        " published successfully " ++ publish_response.change_summary.rendered].map stderrln,
      some publish_response.api_schema_hash)
  | .SubgraphPublishResponse graph_ref subgraph publish_response =>
    (((if publish_response.subgraph_was_created then
        ["A new subgraph called " ++ q subgraph ++ " was created in " ++ q graph_ref.render]
      else
        ["The " ++ q subgraph ++ " subgraph in " ++ q graph_ref.render ++ " was updated"]) ++
      (if publish_response.supergraph_was_updated then
        ["The supergraph schema for " ++ q graph_ref.render ++
          " was updated, composed from the updated " ++ q subgraph ++ " subgraph"]
      else
        ["The supergraph schema for " ++ q graph_ref.render ++
          " was NOT updated with a new schema"]) ++
      (match publish_response.launch_cli_copy with
        | some launch_cli_copy => [launch_cli_copy]
        | none => []) ++
      (if publish_response.build_errors.isEmpty then []
      else
        ["WARN: The following build errors occurred:",
          buildErrorsDisplay publish_response.build_errors])).map stderrln,
      none)
  | .SubgraphDeleteResponse graph_ref subgraph dry_run delete_response =>
    ((if dry_run then
      if !delete_response.build_errors.isEmpty then
        ["WARN: Deleting the " ++ subgraph ++ " subgraph from " ++ graph_ref.render ++
            " would result in the following build errors:",
          buildErrorsDisplay delete_response.build_errors,
          "WARN: This is only a prediction. If the graph changes before confirming, " ++
            "these errors could change."]
      else
        ["WARN: At the time of checking, there would be no build errors resulting " ++
            "from the deletion of this subgraph.",
          "WARN: This is only a prediction. If the graph changes before confirming, " ++
            "there could be build errors."]
    else
      (if delete_response.supergraph_was_updated then
        ["The " ++ q subgraph ++ " subgraph was removed from " ++ q graph_ref.render ++
          ". The remaining subgraphs were composed."]
      else
        ["WARN: The supergraph schema for " ++ q graph_ref.render ++
          " was not updated. See errors below."]) ++
      (if !delete_response.build_errors.isEmpty then
        ["WARN: There were build errors as a result of deleting the " ++ q subgraph ++
            " subgraph from " ++ q graph_ref.render ++ ":",
          buildErrorsDisplay delete_response.build_errors]
      else [])).map stderrln,
      none)
  | .SupergraphSchema csdl => ([], some csdl)
  | .CompositionResult composition_output =>
    ([String.join (composition_output.hints.map fun hint =>
        "HINT: " ++ hint.message ++ "\n")].map stderrln,
      some composition_output.supergraph_sdl)
  | .SubgraphList details =>
    ([], some (renderTable (["Name", "Routing Url", "Last Updated"] ::
        details.subgraphs.map subgraphRow) ++
      "/n View full details at " ++ details.root_url ++ "/graph/" ++
      details.graph_ref.name ++ "/service-list"))
  | .TemplateList templates =>
    ([], some (renderTable (["Name", "ID", "Language", "Repo URL"] ::
      templates.map fun t => [t.display, t.id, t.language, t.git_url])))
  | .TemplateUseSuccess template path =>
    ([], some ("Successfully created a new project from the " ++ q template.id ++
      " template in " ++ path ++ "/n Read the generated " ++ q "README.md" ++
      " file for next steps./n" ++
      "Have a question or suggestion about templates? Let us know at " ++
      "https://community.apollographql.com"))
  | .CheckResponse check_response => ([], some check_response.get_table)
  | .AsyncCheckResponse check_response =>
    ([], some ("Check successfully started with workflow ID: " ++
      check_response.workflow_id ++ "/nView full details at " ++
      check_response.target_url))
  | .Profiles profiles =>
    ((if profiles.isEmpty then ["No profiles found."] else []).map stderrln,
      some (String.intercalate "\n" profiles))
  | .Introspection introspection_response => ([], some introspection_response)
  | .ErrorExplanation explanation => ([], some explanation)
  | .ReadmeFetchResponse _ content _ => ([], some content)
  | .ReadmePublishResponse graph_ref _ _ =>
    (["Readme for " ++ graph_ref.render ++ " published successfully"].map stderrln, none)
  | .EmptySuccess => ([], none)

/-- `RoverOutput::get_internal_data_json`. -/
def RoverOutput.get_internal_data_json : RoverOutput → Json
  | .ContractDescribe describe_response => describe_response.toJson
  | .ContractPublish publish_response => publish_response.toJson
  | .DocsList shortlinks =>
    Json.obj [("shortlinks", Json.arr (shortlinks.map fun p =>
      Json.obj [("slug", Json.str p.1), ("description", Json.str p.2)]))]
  | .FetchResponse fetch_response => fetch_response.toJson
  | .SupergraphSchema csdl => Json.obj [("core_schema", Json.str csdl)]
  | .CompositionResult composition_output =>
    match composition_output.federation_version with
    | some federation_version =>
      Json.obj [("core_schema", Json.str composition_output.supergraph_sdl),
        ("hints", Json.arr (composition_output.hints.map BuildHint.toJson)),
        ("federation_version", Json.str federation_version)]
    | none =>
      Json.obj [("core_schema", Json.str composition_output.supergraph_sdl),
        ("hints", Json.arr (composition_output.hints.map BuildHint.toJson))]
  | .GraphPublishResponse _ publish_response => publish_response.toJson
  | .SubgraphPublishResponse _ _ publish_response => publish_response.toJson
  | .SubgraphDeleteResponse _ _ _ delete_response => delete_response.toJson
  | .SubgraphList list_response => list_response.toJson
  | .TemplateList templates =>
    Json.obj [("templates", Json.arr (templates.map GithubTemplate.toJson))]
  | .TemplateUseSuccess template path =>
    Json.obj [("template_id", Json.str template.id), ("path", Json.str path)]
  | .CheckResponse check_response => check_response.get_json
  | .AsyncCheckResponse check_response => check_response.get_json
  | .Profiles profiles =>
    Json.obj [("profiles", Json.arr (profiles.map Json.str))]
  | .Introspection introspection_response =>
    Json.obj [("introspection_response", Json.str introspection_response)]
  | .ErrorExplanation explanation_markdown =>
    Json.obj [("explanation_markdown", Json.str explanation_markdown)]
  | .ReadmeFetchResponse _ content last_updated_time =>
    Json.obj [("readme", Json.str content),
      ("last_updated_time", Json.optStr last_updated_time)]
  | .ReadmePublishResponse _ new_content last_updated_time =>
    Json.obj [("readme", Json.str new_content),
      ("last_updated_time", Json.optStr last_updated_time)]
  | .EmptySuccess => Json.null

/-- The `rover_error` computed inside `RoverOutput::get_internal_error_json`:
the synthesized build-errors error for publish/delete confirmations with a
non-empty build-error list, `None` for everything else. -/
def RoverOutput.internalRoverError : RoverOutput → Option ErrorValue
  | .SubgraphPublishResponse graph_ref subgraph publish_response =>
    if !publish_response.build_errors.isEmpty then
      some (subgraphBuildErrorsError subgraph graph_ref publish_response.build_errors)
    else none
  | .SubgraphDeleteResponse graph_ref subgraph _ delete_response =>
    if !delete_response.build_errors.isEmpty then
      some (subgraphBuildErrorsError subgraph graph_ref delete_response.build_errors)
    else none
  | _ => none

/-- `RoverOutput::get_internal_error_json`: `json!(rover_error)`. -/
def RoverOutput.get_internal_error_json (o : RoverOutput) : Json :=
  match o.internalRoverError with
  | some e => e.errorJson
  | none => Json.null

/-- `RoverOutput::get_json_version`: always `JsonVersion::default()`,
which renders as "1" (spec §6). -/
def RoverOutput.get_json_version (_ : RoverOutput) : String := "1"

/-- The versioned machine-output document of spec §3/§6. -/
structure Envelope where
  json_version : String
  data : Json
  error : Json

/-- Modelled from the spec: the `JsonOutput` envelope lives in
crate::options, not under src/; `data` is an object that always carries the
`success` boolean next to the variant fields (§6), and a variant with no
machine fields (`null` data) still emits `{"success": ...}` (§3). JSON
object key order is not significant, so `success` is placed first. -/
def insertSuccess (success : Bool) : Json → Json
  | Json.obj fields => Json.obj (("success", Json.bool success) :: fields)
  | _ => Json.obj [("success", Json.bool success)]

/-- Modelled from the spec: the Machine Renderer on `Ok(V)` (§4.2) —
stamps the version, builds `data` from the variant with `success: true`
(build errors do not flip it, §3), and takes `error` from the synthesized
internal error JSON. -/
def renderMachineOk (o : RoverOutput) : Envelope :=
  { json_version := o.get_json_version
    data := insertSuccess true o.get_internal_data_json
    error := o.get_internal_error_json }

/-- Modelled from the spec: the Machine Renderer on `Err(e)` (§4.2/§4.3) —
`data` is the failure's carried data (usually none) with `success: false`,
`error` the encoded error object. -/
def renderMachineErr (e : ErrorValue) : Envelope :=
  { json_version := "1"
    data := insertSuccess false e.data
    error := e.errorJson }

/-- `RoverError::new(anyhow!("No templates matched the provided filters"))`
from templates.rs: an unclassified failure carrying only the message. -/
def templatesEmptyError : ErrorValue :=
  { classified := none
    message := "No templates matched the provided filters"
    build_errors := []
    data := Json.null }

/-- `error_if_empty` (src/command/template/templates.rs). -/
def error_if_empty {α : Type} (values : List α) : Except ErrorValue (List α) :=
  if values.isEmpty then
    Except.error templatesEmptyError
  else
    Except.ok values

/-- `list_templates` (src/command/template/templates.rs): the GraphQL
`request` to the templates server is an external collaborator, so the
template list of the server's response is taken as input; the function
then applies `error_if_empty` to it. -/
def list_templates {α : Type} (respTemplates : List α) : Except ErrorValue (List α) :=
  error_if_empty respTemplates

/-- `get_templates_for_language` (src/command/template/templates.rs): same
convention as `list_templates`. -/
def get_templates_for_language {α : Type} (respTemplates : List α) :
    Except ErrorValue (List α) :=
  error_if_empty respTemplates

/-- The build-error special case of spec §3: a publish- or
delete-confirmation variant whose embedded build-error list is non-empty. -/
def hasEmbeddedBuildErrors : RoverOutput → Bool
  | .SubgraphPublishResponse _ _ publish_response =>
    !publish_response.build_errors.isEmpty
  | .SubgraphDeleteResponse _ _ _ delete_response =>
    !delete_response.build_errors.isEmpty
  | _ => false

lemma insertSuccess_lookup (b : Bool) (j : Json) :
    (insertSuccess b j).lookup "success" = some (Json.bool b) := by
  cases j <;> simp [insertSuccess, Json.lookup, List.lookup]

lemma stream_of_mem_map_stderrln {ts : List String} {e : Emit}
    (h : e ∈ ts.map stderrln) : e.stream = StreamTag.secondary := by
  rcases List.mem_map.mp h with ⟨t, _, rfl⟩
  rfl

lemma get_stdout_emits_map (o : RoverOutput) :
    ∃ ts : List String, (o.get_stdout).1 = ts.map stderrln := by
  cases o <;> first
    | exact ⟨[], rfl⟩
    | exact ⟨_, rfl⟩

lemma errorJson_ne_null (e : ErrorValue) : e.errorJson ≠ Json.null := by
  unfold ErrorValue.errorJson
  cases h : e.classified with
  | none => simp
  | some k => cases k <;> simp

/-- The two-error build-error list of the output.rs test fixtures. -/
def twoBuildErrors : List BuildError :=
  [⟨some "AN_ERROR_CODE", some "[Accounts] -> Things went really wrong"⟩,
    ⟨none, some "[Films] -> Something else also went wrong"⟩]

/-- The publish response of the subgraph_publish_failure_response_json
test fixture. -/
def publishFailureResponse : SubgraphPublishResponse :=
  ⟨none, twoBuildErrors, false, false, none, none⟩

/-- The URL-less, never-updated subgraph row of the subgraph_list_json
test fixture. -/
def subgraphTwoInfo : SubgraphInfo := ⟨"subgraph two", none, ⟨none, none⟩⟩

/-- Claim C1: every successful machine rendering has `data.success == true`,
and `error` is `null` exactly when the output is not a publish- or
delete-confirmation carrying a non-empty build-error list
(`get_internal_error_json` is non-null exactly in that case). -/
theorem machine_success_true_and_error_null_iff_no_build_errors (o : RoverOutput) :
    (renderMachineOk o).data.lookup "success" = some (Json.bool true) ∧
    ((renderMachineOk o).error = Json.null ↔ hasEmbeddedBuildErrors o = false) := by
  refine ⟨insertSuccess_lookup true _, ?_⟩
  cases o with
  | SubgraphPublishResponse graph_ref subgraph publish_response =>
    by_cases h : publish_response.build_errors.isEmpty <;>
      simp [renderMachineOk, RoverOutput.get_internal_error_json,
        RoverOutput.internalRoverError, hasEmbeddedBuildErrors, h, errorJson_ne_null]
  | SubgraphDeleteResponse graph_ref subgraph dry_run delete_response =>
    by_cases h : delete_response.build_errors.isEmpty <;>
      simp [renderMachineOk, RoverOutput.get_internal_error_json,
        RoverOutput.internalRoverError, hasEmbeddedBuildErrors, h, errorJson_ne_null]
  | _ =>
    simp [renderMachineOk, RoverOutput.get_internal_error_json,
      RoverOutput.internalRoverError, hasEmbeddedBuildErrors]

/-- Claim C2: a subgraph publish carrying a non-empty build-error list renders
with `data.success == true`, `error.code == "E029"`, and
`error.details.build_errors` listing the response's build errors in order,
each entry carrying `message`, a nullable `code`, and `type: "composition"`. -/
theorem subgraph_publish_build_errors_machine_output (graph_ref : GraphRef)
    (subgraph : String) (publish_response : SubgraphPublishResponse)
    (h : publish_response.build_errors ≠ []) :
    ((renderMachineOk (RoverOutput.SubgraphPublishResponse graph_ref subgraph
        publish_response)).data.lookup "success" = some (Json.bool true)) ∧
    ((renderMachineOk (RoverOutput.SubgraphPublishResponse graph_ref subgraph
        publish_response)).error.lookup "code" = some (Json.str "E029")) ∧
    ((renderMachineOk (RoverOutput.SubgraphPublishResponse graph_ref subgraph
        publish_response)).error.lookup "details" = some (Json.obj [("build_errors",
          Json.arr (publish_response.build_errors.map BuildError.toJson))])) ∧
    (publish_response.build_errors.map BuildError.toJson).length =
      publish_response.build_errors.length ∧
    ∀ e ∈ publish_response.build_errors, BuildError.toJson e =
      Json.obj [("message", Json.optStr e.message), ("code", Json.optStr e.code),
        ("type", Json.str "composition")] := by
  have hne : ¬publish_response.build_errors.isEmpty := by
    simpa [List.isEmpty_iff] using h
  refine ⟨?_, ?_, ?_, List.length_map _ _, fun e _ => rfl⟩
  · simpa [renderMachineOk] using insertSuccess_lookup true
      (RoverOutput.SubgraphPublishResponse graph_ref subgraph
        publish_response).get_internal_data_json
  all_goals
    simp [renderMachineOk, RoverOutput.get_internal_error_json,
      RoverOutput.internalRoverError, hne, subgraphBuildErrorsError,
      ErrorValue.errorJson, ErrorKind.code, Json.lookup, List.lookup]

/-- Concrete instance of C2 at the two-error publish used by the
subgraph_publish_failure_response_json fixture. -/
theorem subgraph_publish_build_errors_machine_output_witness :
    (renderMachineOk (RoverOutput.SubgraphPublishResponse ⟨"name", "current"⟩
        "subgraph" publishFailureResponse)).error.lookup "code" =
      some (Json.str "E029") :=
  (subgraph_publish_build_errors_machine_output ⟨"name", "current"⟩ "subgraph"
    publishFailureResponse (by simp [publishFailureResponse, twoBuildErrors])).2.1

/-- Claim C3: every failure renders with `data.success == false`; the error
code is the fixed code of the error's classified kind (so the same kind
always yields the same code), and an unclassified failure yields a `null`
code, the plain message, and no `details` field. -/
theorem error_value_machine_rendering (e : ErrorValue) :
    ((renderMachineErr e).data.lookup "success" = some (Json.bool false)) ∧
    ((renderMachineErr e).error.lookup "code" =
      some (match e.classified with
        | none => Json.null
        | some k => Json.str k.code)) ∧
    (e.classified = none →
      (renderMachineErr e).error =
        Json.obj [("message", Json.str e.message), ("code", Json.null)]) := by
  refine ⟨insertSuccess_lookup false _, ?_, fun h => by
    simp [renderMachineErr, ErrorValue.errorJson, h]⟩
  cases h : e.classified with
  | none => simp [renderMachineErr, ErrorValue.errorJson, h, Json.lookup, List.lookup]
  | some k =>
    cases k <;>
      simp [renderMachineErr, ErrorValue.errorJson, h, ErrorKind.code,
        Json.lookup, List.lookup]

/-- Concrete instance of C3 at an unclassified failure. -/
theorem error_value_machine_rendering_witness :
    (renderMachineErr ⟨none, "Some random error", [], Json.null⟩).error =
      Json.obj [("message", Json.str "Some random error"), ("code", Json.null)] :=
  (error_value_machine_rendering ⟨none, "Some random error", [], Json.null⟩).2.2 rfl

/-- Claim C4: for every output and interactivity state, every write made by
`print_descriptor`, `print_one_line_descriptor` and the narration of
`get_stdout` goes to the secondary stream; the primary stream receives at
most the returned body. -/
theorem human_narration_secondary_stream_only (o : RoverOutput) (isTty : Bool)
    (e : Emit)
    (h : e ∈ o.print_descriptor isTty ++ o.print_one_line_descriptor isTty ++
      (o.get_stdout).1) :
    e.stream = StreamTag.secondary := by
  rcases List.mem_append.mp h with h' | hstdout
  · rcases List.mem_append.mp h' with hd | hd
    · exact stream_of_mem_map_stderrln hd
    · exact stream_of_mem_map_stderrln hd
  · obtain ⟨ts, hts⟩ := get_stdout_emits_map o
    rw [hts] at hstdout
    exact stream_of_mem_map_stderrln hstdout

/-- Concrete instance of C4 at the empty profile list's narration line. -/
theorem human_narration_secondary_stream_only_witness :
    (stderrln "No profiles found.").stream = StreamTag.secondary :=
  human_narration_secondary_stream_only (RoverOutput.Profiles []) true
    (stderrln "No profiles found.")
    (by simp [RoverOutput.print_descriptor, RoverOutput.print_one_line_descriptor,
      RoverOutput.get_stdout, RoverOutput.descriptor])

/-- Claim C5 as stated is false: `get_stdout` takes no interactivity input at
all and, for an empty profile list, emits the "No profiles found." status
line unconditionally — so status lines are not suppressed when stdout is not
an interactive terminal. -/
theorem status_lines_not_suppressed_when_not_tty :
    ((RoverOutput.Profiles []).get_stdout).1 = [stderrln "No profiles found."] ∧
    ((RoverOutput.Profiles []).get_stdout).1 ≠ [] :=
  ⟨rfl, by simp [RoverOutput.get_stdout]⟩

/-- Claim C5, amended: when stdout is not a tty, `print_descriptor` and
`print_one_line_descriptor` emit nothing (the descriptor is suppressed);
status lines from `get_stdout` are emitted regardless of interactivity. -/
theorem descriptor_suppressed_when_not_tty (o : RoverOutput) :
    o.print_descriptor false = [] ∧ o.print_one_line_descriptor false = [] := by
  simp [RoverOutput.print_descriptor, RoverOutput.print_one_line_descriptor]

/-- Claim C6: in the human subgraph-list table, a missing or empty routing
URL renders the placeholder "unspecified" and a missing local update time
renders "N/A"; rows always have all three columns and the placeholders are
never empty. -/
theorem subgraph_list_placeholders (s : SubgraphInfo) :
    ((s.url = none ∨ s.url = some "") → (subgraphRow s)[1]? = some "unspecified") ∧
    (s.updated_at.localTime = none → (subgraphRow s)[2]? = some "N/A") ∧
    (subgraphRow s).length = 3 ∧
    ("unspecified" : String) ≠ "" ∧ ("N/A" : String) ≠ "" := by
  refine ⟨?_, ?_, rfl, by decide, by decide⟩
  · rintro (h | h)
    · simp [subgraphRow, h]
    · simp [subgraphRow, h]
      decide
  · intro h
    simp [subgraphRow, h]

/-- Concrete instance of C6 at a row with no URL and no local update time. -/
theorem subgraph_list_placeholders_witness :
    (subgraphRow subgraphTwoInfo)[1]? = some "unspecified" ∧
    (subgraphRow subgraphTwoInfo)[2]? = some "N/A" :=
  ⟨(subgraph_list_placeholders subgraphTwoInfo).1 (Or.inl rfl),
    (subgraph_list_placeholders subgraphTwoInfo).2.1 rfl⟩

/-- Claim C7: the machine data of `Profiles` is the profile list under the
`profiles` key; the human rendering emits the "No profiles found." narration
line on the secondary stream exactly when the list is empty, and the body is
the newline-joined profile names (so the empty string for no profiles). -/
theorem profiles_rendering (profiles : List String) :
    (RoverOutput.Profiles profiles).get_internal_data_json =
      Json.obj [("profiles", Json.arr (profiles.map Json.str))] ∧
    (RoverOutput.Profiles profiles).get_stdout =
      ((if profiles.isEmpty then [stderrln "No profiles found."] else []),
        some (String.intercalate "\n" profiles)) ∧
    (RoverOutput.Profiles []).get_stdout = ([stderrln "No profiles found."], some "") := by
  refine ⟨rfl, ?_, rfl⟩
  rcases profiles with _ | ⟨p, ps⟩ <;> rfl

/-- Claim C8: the machine rendering of `EmptySuccess` has `data` equal to
exactly the one-field object with `success: true` (the raw internal data is
`null`) and a `null` error. -/
theorem empty_success_machine_rendering :
    (renderMachineOk RoverOutput.EmptySuccess).data =
      Json.obj [("success", Json.bool true)] ∧
    (renderMachineOk RoverOutput.EmptySuccess).error = Json.null ∧
    RoverOutput.EmptySuccess.get_internal_data_json = Json.null :=
  ⟨rfl, rfl, rfl⟩

/-- Claim C9: `error_if_empty` errors exactly on the empty list (with the
"No templates matched the provided filters" failure) and returns non-empty
input unchanged, so `list_templates` and `get_templates_for_language` never
return an empty template list. -/
theorem error_if_empty_never_ok_empty {α : Type} (values : List α) :
    (values = [] → error_if_empty values = Except.error templatesEmptyError) ∧
    (values ≠ [] → error_if_empty values = Except.ok values) ∧
    (∀ v, list_templates values = Except.ok v → v ≠ []) ∧
    (∀ v, get_templates_for_language values = Except.ok v → v ≠ []) := by
  rcases values with _ | ⟨a, as⟩
  · refine ⟨fun _ => rfl, fun h => absurd rfl h, fun v hv => ?_, fun v hv => ?_⟩ <;>
      simp [list_templates, get_templates_for_language, error_if_empty] at hv
  · refine ⟨?_, fun _ => rfl, ?_, ?_⟩
    · intro h
      exact absurd h (List.cons_ne_nil a as)
    · intro v hv
      have hva : a :: as = v := Except.ok.inj hv
      exact hva ▸ List.cons_ne_nil a as
    · intro v hv
      have hva : a :: as = v := Except.ok.inj hv
      exact hva ▸ List.cons_ne_nil a as

/-- Concrete instances of C9 at an empty and a one-element template list. -/
theorem error_if_empty_never_ok_empty_witness :
    error_if_empty ([] : List String) = Except.error templatesEmptyError ∧
    error_if_empty ["template"] = Except.ok ["template"] :=
  ⟨(error_if_empty_never_ok_empty ([] : List String)).1 rfl,
    (error_if_empty_never_ok_empty ["template"]).2.1 (by simp)⟩

/-- Claim C10: the machine rendering of a subgraph delete ignores the
`dry_run` flag — both the data and the error JSON are unchanged when only
`dry_run` differs. -/
theorem subgraph_delete_machine_rendering_ignores_dry_run (graph_ref : GraphRef)
    (subgraph : String) (d1 d2 : Bool) (delete_response : SubgraphDeleteResponse) :
    (RoverOutput.SubgraphDeleteResponse graph_ref subgraph d1
        delete_response).get_internal_data_json =
      (RoverOutput.SubgraphDeleteResponse graph_ref subgraph d2
        delete_response).get_internal_data_json ∧
    (RoverOutput.SubgraphDeleteResponse graph_ref subgraph d1
        delete_response).get_internal_error_json =
      (RoverOutput.SubgraphDeleteResponse graph_ref subgraph d2
        delete_response).get_internal_error_json :=
  ⟨rfl, rfl⟩

end Rover
